import Mathlib

/-!
A shallow embedding of `src/app.py` (class `PDFComplexityAssessor`), the
complexity-assessment and pricing engine of the pdf-estimator-tool
repository, together with theorems about its behaviour.

Modelling choices:
* Python floats are modelled as exact rationals (`ℚ`); `round(x, 2)` is
  modelled by `round2`, rounding to cents with ties going to the even cent
  (Python's documented banker rounding).
* A parsed PDF document (a `pikepdf.Pdf` that opened successfully) is a
  `Document`: an optional `MarkInfo` record under the root plus a list of
  pages.  A page carries the three signals the code reads, each wrapped in
  `Option` where the code guards the read with a membership test or a
  `try/except` (so `none` models "absent or unreadable": the attribute is
  missing, or `read_bytes`/`keys()` raised).
* The Streamlit progress-bar side channel is modelled by `progressUpdates`,
  the list of fractions the page loop would push.
-/

/-- The string `"/Widget"`, the annotation subtype the form-detection loop
compares against (`str(annot.Subtype) == "/Widget"`). -/
def widgetSubtype : String := "/Widget"

/-- A page annotation: `subtype` is `some s` when the annotation object has a
`Subtype` attribute whose string form is `s` (`hasattr(annot, "Subtype")`),
and `none` otherwise. -/
structure Annot where
  subtype : Option String
deriving DecidableEq, Repr

/-- A page of a parsed PDF, carrying exactly the signals
`PDFComplexityAssessor._assess_page` reads:
* `annots`: the annotation list when `"/Annots" in page`, else `none`;
* `contentLen`: `len(page.read_bytes())` when the read succeeds, `none` when
  it raises (the `try/except: pass` at lines 96–102);
* `xobjects`: `len(page.Resources.XObject.keys())` when `"/Resources"` and
  `"/XObject"` are present and the read succeeds, `none` otherwise
  (lines 105–113). -/
structure Page where
  annots : Option (List Annot)
  contentLen : Option Nat
  xobjects : Option Nat
deriving DecidableEq, Repr

/-- The root `MarkInfo` object; `marked` is `some b` when it has a `Marked`
entry with boolean value `b`, `none` when the entry is absent. -/
structure MarkInfo where
  marked : Option Bool
deriving DecidableEq, Repr

/-- A successfully parsed PDF document: the optional `Root.MarkInfo`
metadata and the page list. -/
structure Document where
  markInfo : Option MarkInfo
  pages : List Page
deriving DecidableEq, Repr

/-- The three complexity tiers of the report's `tiers` dictionary. -/
inductive Tier where
  | tier1 : Tier
  | tier2 : Tier
  | tier3 : Tier
deriving DecidableEq, Repr

/-- The `tiers` dictionary: page count per tier. -/
structure Tiers where
  t1 : Nat
  t2 : Nat
  t3 : Nat
deriving DecidableEq, Repr

/-- The `elements` dictionary: running totals of form widgets, XObject
entries, and pages whose raw content length exceeded the density
threshold (`tables_suspected`). -/
structure Elements where
  forms : Nat
  images : Nat
  tablesSuspected : Nat
deriving DecidableEq, Repr

/-- One entry of `complexity_breakdown`:
`{"Page": page_num, "Tier": tier, "Forms": forms_found, "Score": page_score}`. -/
structure BreakdownEntry where
  page : Nat
  tier : Tier
  forms : Nat
  score : Nat
deriving DecidableEq, Repr

/-- The `pricing_breakdown` dictionary written by `_calculate_pricing`. -/
structure PricingBreakdown where
  contentRemediation : ℚ
  untaggedSurcharge : ℚ
  formRemediation : ℚ
deriving DecidableEq, Repr

/-- `self.report`: the mutable report dictionary of the assessor.
`pricing` is `none` until `_calculate_pricing` has run (the Python dict has
no `pricing_breakdown` key before then). -/
structure Report where
  is_tagged : Bool
  total_pages : Nat
  tiers : Tiers
  elements : Elements
  estimated_cost : ℚ
  complexity_breakdown : List BreakdownEntry
  pricing : Option PricingBreakdown
deriving DecidableEq, Repr

/-- The initial report built in `__init__` (lines 36–43). -/
def initReport : Report :=
  { is_tagged := false
    total_pages := 0
    tiers := ⟨0, 0, 0⟩
    elements := ⟨0, 0, 0⟩
    estimated_cost := 0
    complexity_breakdown := []
    pricing := none }

/-- Rounding to two decimals, modelling Python's `round(x, 2)`:
round `100 * x` to the nearest integer, ties to the even integer, then
divide by 100. -/
def round2 (x : ℚ) : ℚ :=
  let y := 100 * x
  let n : ℤ := if Int.fract y = 1 / 2 then (if ⌊y⌋ % 2 = 0 then ⌊y⌋ else ⌊y⌋ + 1) else round y
  (n : ℚ) / 100

/-- The tagging check of `analyze` (lines 52–57): `is_tagged` becomes true
exactly when `pdf.Root.MarkInfo` exists and its `Marked` entry exists and is
true; a missing `MarkInfo` or missing `Marked` raises
`AttributeError`/`KeyError`, which the handler turns into `false`. -/
def checkTagging (d : Document) : Bool :=
  match d.markInfo with
  | none => false
  | some mi =>
    match mi.marked with
    | none => false
    | some b => b

/-- One step of the annotation loop (lines 88–91): scanning one annotation
updates the pair `(forms_found, page_score)`, adding 1 and 5 when the
annotation has subtype `/Widget`. -/
def annotStep (acc : Nat × Nat) (a : Annot) : Nat × Nat :=
  if a.subtype = some widgetSubtype then (acc.1 + 1, acc.2 + 5) else acc

/-- `_assess_page` (lines 82–126): accumulate the page score from the three
signals, pick the tier, and update the report's element totals, tier counts
and breakdown list. -/
def assessPage (r : Report) (page : Page) (page_num : Nat) : Report :=
  let fs : Nat × Nat :=
    match page.annots with
    | none => (0, 0)
    | some l => l.foldl annotStep (0, 0)
  let forms_found := fs.1
  let scoreAfterForms := fs.2
  let dens : Nat × Nat :=
    match page.contentLen with
    | none => (0, scoreAfterForms)
    | some raw_len =>
      if raw_len > 15000 then (1, scoreAfterForms + 10) else (0, scoreAfterForms)
  let tables_inc := dens.1
  let scoreAfterDensity := dens.2
  let imgs : Nat × Nat :=
    match page.xobjects with
    | none => (0, scoreAfterDensity)
    | some img_count =>
      (img_count, if img_count > 2 then scoreAfterDensity + 2 else scoreAfterDensity)
  let img_inc := imgs.1
  let page_score := imgs.2
  let tier : Tier :=
    if page_score < 5 then Tier.tier1
    else if 5 ≤ page_score ∧ page_score < 15 then Tier.tier2
    else Tier.tier3
  { r with
    elements :=
      { forms := r.elements.forms + forms_found
        images := r.elements.images + img_inc
        tablesSuspected := r.elements.tablesSuspected + tables_inc }
    tiers :=
      match tier with
      | Tier.tier1 => { r.tiers with t1 := r.tiers.t1 + 1 }
      | Tier.tier2 => { r.tiers with t2 := r.tiers.t2 + 1 }
      | Tier.tier3 => { r.tiers with t3 := r.tiers.t3 + 1 }
    complexity_breakdown :=
      r.complexity_breakdown ++ [⟨page_num, tier, forms_found, page_score⟩] }

/-- `_calculate_pricing` (lines 128–149): per-tier content costs from the
configurable base rate and the tier multipliers 1.0 / 1.75 / 3.5, a 25%
surcharge on the content cost when the document is untagged, a per-field
form cost, and the rounded total. -/
def calculatePricing (r : Report) (base_rate form_rate : ℚ) : Report :=
  let t1_cost : ℚ := (r.tiers.t1 : ℚ) * base_rate * 1.0
  let t2_cost : ℚ := (r.tiers.t2 : ℚ) * base_rate * 1.75
  let t3_cost : ℚ := (r.tiers.t3 : ℚ) * base_rate * 3.5
  let untagged_tax : ℚ := if r.is_tagged then 0 else (t1_cost + t2_cost + t3_cost) * 0.25
  let form_cost : ℚ := (r.elements.forms : ℚ) * form_rate
  let total := t1_cost + t2_cost + t3_cost + untagged_tax + form_cost
  { r with
    estimated_cost := round2 total
    pricing := some
      { contentRemediation := round2 (t1_cost + t2_cost + t3_cost)
        untaggedSurcharge := round2 untagged_tax
        formRemediation := round2 form_cost } }

/-- The page loop of `analyze` (lines 64–70): `for i, page in
enumerate(pdf.pages): self._assess_page(page, i + 1)`, carried out from
index `i`. -/
def pageLoop (r : Report) (i : Nat) : List Page → Report
  | [] => r
  | p :: ps => pageLoop (assessPage r p (i + 1)) (i + 1) ps

/-- `analyze` (lines 45–76) for a document that parsed successfully: record
the page count, run the tagging check, assess every page in order, then
price. -/
def analyze (d : Document) (base_rate form_rate : ℚ) : Report :=
  let r0 := { initReport with total_pages := d.pages.length }
  let r1 := { r0 with is_tagged := checkTagging d }
  let r2 := pageLoop r1 0 d.pages
  calculatePricing r2 base_rate form_rate

/-- The sequence of fractions pushed to the progress bar (line 66:
`progress = (i + 1) / self.report["total_pages"]`, once per loop
iteration); for a document with `n` pages it has one entry per page, and
for `n = 0` the loop body — hence the division — is never reached. -/
def progressUpdates (n : Nat) : List ℚ :=
  (List.range n).map (fun i => ((i : ℚ) + 1) / (n : ℚ))

/-! ### Pure per-page signal functions

Closed forms of the quantities `_assess_page` accumulates, stated directly
as functions of a `Page`; the theorems below prove that the imperative
accumulation in `assessPage` computes exactly these. -/

/-- Whether an annotation is an interactive form widget. -/
def isWidget (a : Annot) : Bool :=
  a.subtype = some widgetSubtype

/-- `forms_found`: the number of widget annotations on the page (0 when the
page has no annotation list). -/
def formsFound (p : Page) : Nat :=
  (p.annots.getD []).countP isWidget

/-- The flat density contribution: +10 when the readable raw content length
exceeds 15000 bytes, 0 when it does not or cannot be read. -/
def densityBonus (p : Page) : Nat :=
  match p.contentLen with
  | none => 0
  | some raw_len => if raw_len > 15000 then 10 else 0

/-- Whether the page counts towards `tables_suspected` (1 or 0). -/
def densityFlag (p : Page) : Nat :=
  match p.contentLen with
  | none => 0
  | some raw_len => if raw_len > 15000 then 1 else 0

/-- The XObject entries contributed to `elements["images"]` (0 when the
resource dictionary or XObject entry is absent or unreadable). -/
def imageCount (p : Page) : Nat :=
  p.xobjects.getD 0

/-- The flat image contribution: +2 when the readable XObject count exceeds
2, 0 otherwise. -/
def imageBonus (p : Page) : Nat :=
  match p.xobjects with
  | none => 0
  | some img_count => if img_count > 2 then 2 else 0

/-- The page complexity score as a closed sum: +5 per form widget, plus the
flat density bonus, plus the flat image bonus. -/
def pageScore (p : Page) : Nat :=
  5 * formsFound p + densityBonus p + imageBonus p

/-- The tier classification of lines 116–121 as a pure function of the
score. -/
def classifyTier (s : Nat) : Tier :=
  if s < 5 then Tier.tier1 else if s < 15 then Tier.tier2 else Tier.tier3

/-- Increment the count of one tier. -/
def bumpTier (t : Tiers) (T : Tier) : Tiers :=
  match T with
  | Tier.tier1 => { t with t1 := t.t1 + 1 }
  | Tier.tier2 => { t with t2 := t.t2 + 1 }
  | Tier.tier3 => { t with t3 := t.t3 + 1 }

/-- Total number of pages counted across the three tiers. -/
def sumTiers (t : Tiers) : Nat :=
  t.t1 + t.t2 + t.t3

/-! ### Pure pricing closed forms

Closed forms of the quantities `_calculate_pricing` computes, stated over
tier counts; the theorems below prove the embedded `calculatePricing`
matches them. -/

/-- The tier multiplier table of line 130. -/
def tierMultiplier : Tier → ℚ
  | Tier.tier1 => 1.0
  | Tier.tier2 => 1.75
  | Tier.tier3 => 3.5

/-- The page count of one tier. -/
def tierCount (t : Tiers) : Tier → Nat
  | Tier.tier1 => t.t1
  | Tier.tier2 => t.t2
  | Tier.tier3 => t.t3

/-- The per-tier content cost: pages in the tier times the configurable base
rate times the tier multiplier. -/
def tierSubtotal (t : Tiers) (base_rate : ℚ) (T : Tier) : ℚ :=
  (tierCount t T : ℚ) * base_rate * tierMultiplier T

/-- The total content-remediation cost over the three tiers. -/
def contentCost (t : Tiers) (base_rate : ℚ) : ℚ :=
  tierSubtotal t base_rate Tier.tier1 + tierSubtotal t base_rate Tier.tier2 +
    tierSubtotal t base_rate Tier.tier3

/-- The pre-rounding total of `_calculate_pricing`: content cost, plus a 25%
surcharge on it when the report is untagged, plus the per-field form cost. -/
def rawTotal (r : Report) (base_rate form_rate : ℚ) : ℚ :=
  contentCost r.tiers base_rate +
    (if r.is_tagged then 0 else contentCost r.tiers base_rate * 0.25) +
    (r.elements.forms : ℚ) * form_rate

/-! ### The pricing model asserted by the specification

These definitions follow the specification's words (fixed tier rates,
rush multiplier, per-document minimum floor); they are *not* read off the
source.  They exist solely to be compared against the embedded code. -/

/-- The fixed per-tier rates the specification asserts. -/
def specRate : Tier → ℚ
  | Tier.tier1 => 10
  | Tier.tier2 => 17.5
  | Tier.tier3 => 35

/-- The rush multiplier the specification asserts. -/
def specRushMultiplier (rush : Bool) : ℚ :=
  if rush then 2 else 1

/-- The specification's per-tier subtotal:
`tier_counts[T] * rate(T) * rush_multiplier`. -/
def specSubtotal (t : Tiers) (rush : Bool) (T : Tier) : ℚ :=
  (tierCount t T : ℚ) * specRate T * specRushMultiplier rush

/-- The specification's raw total: the sum of the three tier subtotals and
nothing else. -/
def specRawTotal (t : Tiers) (rush : Bool) : ℚ :=
  specSubtotal t rush Tier.tier1 + specSubtotal t rush Tier.tier2 +
    specSubtotal t rush Tier.tier3

/-- The specification's final total: the raw total floored at the 25.00
per-document minimum charge. -/
def specFinalTotal (t : Tiers) (rush : Bool) : ℚ :=
  max (specRawTotal t rush) 25

/-! ### Concrete fixtures used by the counterexamples and witnesses -/

/-- A tagged report with one Tier-1 page and no form fields. -/
def reportOneT1 : Report :=
  { initReport with is_tagged := true, tiers := ⟨1, 0, 0⟩ }

/-- Like `reportOneT1` but with one form field counted in `elements`. -/
def reportOneT1Form : Report :=
  { reportOneT1 with elements := ⟨1, 0, 0⟩ }

/-- A tagged report with one Tier-2 page and no form fields. -/
def reportOneT2 : Report :=
  { initReport with is_tagged := true, tiers := ⟨0, 1, 0⟩ }

/-- Like `reportOneT1` but untagged. -/
def reportOneT1Untagged : Report :=
  { reportOneT1 with is_tagged := false }

/-- A tagged report with the specification's rush-example tier counts
{Tier1: 3, Tier2: 2, Tier3: 1} and no form fields. -/
def reportMix : Report :=
  { initReport with is_tagged := true, tiers := ⟨3, 2, 1⟩ }

/-- Like `reportOneT1` but with a non-empty breakdown list (used to show
pricing ignores fields other than tiers, tag flag and form count). -/
def reportOneT1Alt : Report :=
  { reportOneT1 with
    total_pages := 1
    complexity_breakdown := [⟨1, Tier.tier1, 0, 0⟩] }

/-- The page of the specification's scoring example: three widget
annotations, raw content length 20000, three XObject entries. -/
def examplePage : Page :=
  ⟨some [⟨some widgetSubtype⟩, ⟨some widgetSubtype⟩, ⟨some widgetSubtype⟩],
    some 20000, some 3⟩

/-! ## Helper lemmas -/

/-- The annotation loop accumulates exactly the widget count and five points
per widget. -/
lemma annotStep_foldl (l : List Annot) (f s : Nat) :
    l.foldl annotStep (f, s) = (f + l.countP isWidget, s + 5 * l.countP isWidget) := by
  induction l generalizing f s with
  | nil => simp
  | cons a l ih =>
    by_cases h : a.subtype = some widgetSubtype
    · simp [List.foldl_cons, annotStep, h, ih, List.countP_cons, isWidget]
      omega
    · simp [List.foldl_cons, annotStep, h, ih, List.countP_cons, isWidget]

/-- The inline tier conditional of `_assess_page` agrees with `classifyTier`. -/
lemma classifyTier_of_branch (s : Nat) :
    (if s < 5 then Tier.tier1 else if 5 ≤ s ∧ s < 15 then Tier.tier2 else Tier.tier3) =
      classifyTier s := by
  unfold classifyTier
  split_ifs <;> first | rfl | omega

/-- Characterization of `assessPage`: the imperative accumulation computes
the closed-form signal functions, bumps the classified tier, and appends one
breakdown entry. -/
lemma assessPage_eq (r : Report) (p : Page) (n : Nat) :
    assessPage r p n =
      { r with
        elements :=
          ⟨r.elements.forms + formsFound p, r.elements.images + imageCount p,
            r.elements.tablesSuspected + densityFlag p⟩
        tiers := bumpTier r.tiers (classifyTier (pageScore p))
        complexity_breakdown :=
          r.complexity_breakdown ++
            [⟨n, classifyTier (pageScore p), formsFound p, pageScore p⟩] } := by
  obtain ⟨an, cl, xo⟩ := p
  simp only [assessPage, annotStep_foldl, classifyTier_of_branch]
  cases an <;> cases cl <;> cases xo <;>
    simp [formsFound, densityBonus, densityFlag, imageCount, imageBonus, pageScore,
      bumpTier, classifyTier_of_branch] <;>
    split_ifs <;>
    simp_all [bumpTier, classifyTier_of_branch]

/-- Bumping one tier raises the tier-count sum by one. -/
lemma sumTiers_bumpTier (t : Tiers) (T : Tier) :
    sumTiers (bumpTier t T) = sumTiers t + 1 := by
  cases T <;> simp [bumpTier, sumTiers] <;> omega

/-- `_assess_page` does not touch the page-count field. -/
lemma assessPage_total_pages (r : Report) (p : Page) (n : Nat) :
    (assessPage r p n).total_pages = r.total_pages := by
  rw [assessPage_eq]

/-- `_assess_page` does not touch the tagged flag. -/
lemma assessPage_is_tagged (r : Report) (p : Page) (n : Nat) :
    (assessPage r p n).is_tagged = r.is_tagged := by
  rw [assessPage_eq]

/-- Each page assessment raises the tier-count sum by exactly one. -/
lemma assessPage_sumTiers (r : Report) (p : Page) (n : Nat) :
    sumTiers (assessPage r p n).tiers = sumTiers r.tiers + 1 := by
  rw [assessPage_eq]
  exact sumTiers_bumpTier _ _

/-- Each page assessment appends exactly one breakdown entry, carrying the
given page number. -/
lemma assessPage_breakdown_map (r : Report) (p : Page) (n : Nat) :
    (assessPage r p n).complexity_breakdown.map BreakdownEntry.page =
      r.complexity_breakdown.map BreakdownEntry.page ++ [n] := by
  rw [assessPage_eq]
  simp

/-- The page loop does not touch the page-count field. -/
lemma pageLoop_total_pages (l : List Page) (r : Report) (i : Nat) :
    (pageLoop r i l).total_pages = r.total_pages := by
  induction l generalizing r i with
  | nil => rfl
  | cons p ps ih => rw [pageLoop, ih, assessPage_total_pages]

/-- The page loop does not touch the tagged flag. -/
lemma pageLoop_is_tagged (l : List Page) (r : Report) (i : Nat) :
    (pageLoop r i l).is_tagged = r.is_tagged := by
  induction l generalizing r i with
  | nil => rfl
  | cons p ps ih => rw [pageLoop, ih, assessPage_is_tagged]

/-- The page loop raises the tier-count sum by the number of pages scanned. -/
lemma pageLoop_sumTiers (l : List Page) (r : Report) (i : Nat) :
    sumTiers (pageLoop r i l).tiers = sumTiers r.tiers + l.length := by
  induction l generalizing r i with
  | nil => rfl
  | cons p ps ih =>
    rw [pageLoop, ih, assessPage_sumTiers]
    simp
    omega

/-- The page loop appends one breakdown entry per page, numbered
consecutively from `i + 1`. -/
lemma pageLoop_breakdown_map (l : List Page) (r : Report) (i : Nat) :
    (pageLoop r i l).complexity_breakdown.map BreakdownEntry.page =
      r.complexity_breakdown.map BreakdownEntry.page ++ List.range' (i + 1) l.length := by
  induction l generalizing r i with
  | nil => simp [pageLoop]
  | cons p ps ih =>
    rw [pageLoop, ih, assessPage_breakdown_map]
    simp [List.range'_succ, List.append_assoc]

/-- Pricing leaves the tier counts unchanged. -/
lemma calculatePricing_tiers (r : Report) (b f : ℚ) :
    (calculatePricing r b f).tiers = r.tiers := rfl

/-- Pricing leaves the page count unchanged. -/
lemma calculatePricing_total_pages (r : Report) (b f : ℚ) :
    (calculatePricing r b f).total_pages = r.total_pages := rfl

/-- Pricing leaves the tagged flag unchanged. -/
lemma calculatePricing_is_tagged (r : Report) (b f : ℚ) :
    (calculatePricing r b f).is_tagged = r.is_tagged := rfl

/-- Pricing leaves the per-page breakdown unchanged. -/
lemma calculatePricing_breakdown (r : Report) (b f : ℚ) :
    (calculatePricing r b f).complexity_breakdown = r.complexity_breakdown := rfl

/-- Pricing leaves the element totals unchanged. -/
lemma calculatePricing_elements (r : Report) (b f : ℚ) :
    (calculatePricing r b f).elements = r.elements := rfl

/-- A rational that is an exact number of cents is a fixed point of
`round2`. -/
lemma round2_of_cents (x : ℚ) (m : ℤ) (h : (100 : ℚ) * x = (m : ℚ)) : round2 x = x := by
  simp only [round2]
  rw [h]
  simp [Int.fract_intCast, round_intCast]
  linarith

/-- The estimated cost is the rounded pre-rounding total `rawTotal`. -/
lemma calculatePricing_estimated (r : Report) (b f : ℚ) :
    (calculatePricing r b f).estimated_cost = round2 (rawTotal r b f) := rfl

/-- The pricing-breakdown lines are the rounded content cost, surcharge and
form cost. -/
lemma calculatePricing_pricing (r : Report) (b f : ℚ) :
    (calculatePricing r b f).pricing = some
      ⟨round2 (contentCost r.tiers b),
        round2 (if r.is_tagged then 0 else contentCost r.tiers b * 0.25),
        round2 ((r.elements.forms : ℚ) * f)⟩ := rfl

/-! ## Claim theorems -/

/-- Claim C1: the per-page complexity score is the sum of +5 for each
form-widget annotation, a flat +10 when the page's raw content byte length
exceeds 15000, and a flat +2 when the page's image/XObject count exceeds 2
(`pageScore p = 5 * formsFound p + densityBonus p + imageBonus p` by
definition), and `_assess_page` records exactly this score together with its
tier classification; in particular the example page with 3 widget
annotations, content length 20000 and image count 3 scores 27 and is
classified Tier 3. -/
theorem C1_page_score (r : Report) (p : Page) (n : Nat) :
    (assessPage r p n).complexity_breakdown =
      r.complexity_breakdown ++
        [⟨n, classifyTier (pageScore p), formsFound p, pageScore p⟩] ∧
    formsFound examplePage = 3 ∧ pageScore examplePage = 27 ∧
    (assessPage initReport examplePage 1).complexity_breakdown =
      [⟨1, Tier.tier3, 3, 27⟩] := by
  refine ⟨?_, by decide, by decide, by decide⟩
  rw [assessPage_eq]

/-- Claim C2: tier classification is a total function of the score that
partitions the scores exactly: `s < 5` iff Tier 1, `5 ≤ s < 15` iff Tier 2,
`15 ≤ s` iff Tier 3, with the boundary values 4, 5, 14, 15 classified as
Tier 1, Tier 2, Tier 2, Tier 3 respectively. -/
theorem C2_tier_partition (s : Nat) :
    (classifyTier s = Tier.tier1 ↔ s < 5) ∧
    (classifyTier s = Tier.tier2 ↔ 5 ≤ s ∧ s < 15) ∧
    (classifyTier s = Tier.tier3 ↔ 15 ≤ s) ∧
    classifyTier 4 = Tier.tier1 ∧ classifyTier 5 = Tier.tier2 ∧
    classifyTier 14 = Tier.tier2 ∧ classifyTier 15 = Tier.tier3 := by
  refine ⟨?_, ?_, ?_, by decide, by decide, by decide, by decide⟩
  all_goals (unfold classifyTier; split_ifs <;> simp_all <;> omega)

/-- Claim C3, counterexample: the estimated total is *not* a function of
tier counts, rates and a rush flag alone.  Two reports with identical tier
counts (one Tier-1 page each) but different form-field totals are priced
10.00 and 13.00 under base rate 10.00 and form rate 3.00; moreover a
one-Tier-2-page document under the default base rate 6.00 costs 10.50,
not the fixed Tier-2 rate 17.50 the claim asserts. -/
theorem C3_counterexample :
    reportOneT1.tiers = reportOneT1Form.tiers ∧
    (calculatePricing reportOneT1 10 3).estimated_cost = 10 ∧
    (calculatePricing reportOneT1Form 10 3).estimated_cost = 13 ∧
    (calculatePricing reportOneT2 6 3).estimated_cost = 10.5 ∧
    specRate Tier.tier2 = 17.5 ∧ ¬ (10.5 : ℚ) = 17.5 := by
  refine ⟨rfl, ?_, ?_, ?_, rfl, by norm_num⟩
  · rw [calculatePricing_estimated]
    have h : rawTotal reportOneT1 10 3 = 10 := by
      norm_num [rawTotal, contentCost, tierSubtotal, tierCount, tierMultiplier, reportOneT1,
        initReport]
    rw [h]
    exact round2_of_cents 10 1000 (by norm_num)
  · rw [calculatePricing_estimated]
    have h : rawTotal reportOneT1Form 10 3 = 13 := by
      norm_num [rawTotal, contentCost, tierSubtotal, tierCount, tierMultiplier,
        reportOneT1Form, reportOneT1, initReport]
    rw [h]
    exact round2_of_cents 13 1300 (by norm_num)
  · rw [calculatePricing_estimated]
    have h : rawTotal reportOneT2 6 3 = 10.5 := by
      norm_num [rawTotal, contentCost, tierSubtotal, tierCount, tierMultiplier, reportOneT2,
        initReport]
    rw [h]
    exact round2_of_cents 10.5 1050 (by norm_num)

/-- Claim C3, amended: each tier subtotal is
`tier_counts[T] * base_rate * multiplier(T)` with multipliers 1.0, 1.75 and
3.5 of the configurable base rate (not fixed rates 10.00/17.50/35.00, and
with no rush multiplier), and the total additionally includes the untagged
surcharge and the per-field form cost before rounding. -/
theorem C3_amended_pricing (r : Report) (b f : ℚ) :
    (calculatePricing r b f).pricing = some
      ⟨round2 (tierSubtotal r.tiers b Tier.tier1 + tierSubtotal r.tiers b Tier.tier2 +
          tierSubtotal r.tiers b Tier.tier3),
        round2 (if r.is_tagged then 0 else contentCost r.tiers b * 0.25),
        round2 ((r.elements.forms : ℚ) * f)⟩ ∧
    (calculatePricing r b f).estimated_cost = round2 (rawTotal r b f) ∧
    tierMultiplier Tier.tier1 = 1.0 ∧ tierMultiplier Tier.tier2 = 1.75 ∧
    tierMultiplier Tier.tier3 = 3.5 :=
  ⟨calculatePricing_pricing r b f, calculatePricing_estimated r b f, rfl, rfl, rfl⟩

/-- Claim C4, counterexample: the document of the claim's own example (one
Tier-1 page, no rush) is billed 10.00 by the code — strictly below the
25.00 the claimed minimum floor would make final — so no per-document
minimum charge is applied. -/
theorem C4_counterexample :
    (calculatePricing reportOneT1 10 0).estimated_cost = 10 ∧
    specFinalTotal reportOneT1.tiers false = 25 ∧
    (calculatePricing reportOneT1 10 0).estimated_cost < 25 := by
  have h : rawTotal reportOneT1 10 0 = 10 := by
    norm_num [rawTotal, contentCost, tierSubtotal, tierCount, tierMultiplier, reportOneT1,
      initReport]
  have he : (calculatePricing reportOneT1 10 0).estimated_cost = 10 := by
    rw [calculatePricing_estimated, h]
    exact round2_of_cents 10 1000 (by norm_num)
  refine ⟨he, ?_, by rw [he]; norm_num⟩
  norm_num [specFinalTotal, specRawTotal, specSubtotal, specRate, specRushMultiplier,
    tierCount, reportOneT1, initReport]

/-- Claim C4, amended: the final charged total is simply the raw total
rounded to cents — no `max` with a 25.00 floor is taken and the report
records no minimum-applied flag (the `Report` structure has no such field);
in particular a one-Tier-1-page document at base rate 10.00 is billed
10.00, below 25.00. -/
theorem C4_amended_no_floor (r : Report) (b f : ℚ) :
    (calculatePricing r b f).estimated_cost = round2 (rawTotal r b f) ∧
    (calculatePricing reportOneT1 10 0).estimated_cost = 10 ∧ (10 : ℚ) < 25 := by
  refine ⟨calculatePricing_estimated r b f, ?_, by norm_num⟩
  rw [calculatePricing_estimated]
  have h : rawTotal reportOneT1 10 0 = 10 := by
    norm_num [rawTotal, contentCost, tierSubtotal, tierCount, tierMultiplier, reportOneT1,
      initReport]
  rw [h]
  exact round2_of_cents 10 1000 (by norm_num)

/-- Claim C5, counterexample: on the specification's rush example (tier
counts {Tier1: 3, Tier2: 2, Tier3: 1}) the claimed rush pricing yields
200.00, but the code — whose pricing takes no rush input at all — bills the
document 100.00 under base rate 10.00; no doubled total is ever produced. -/
theorem C5_counterexample :
    (calculatePricing reportMix 10 3).estimated_cost = 100 ∧
    specRawTotal reportMix.tiers true = 200 ∧
    ¬ (calculatePricing reportMix 10 3).estimated_cost = specRawTotal reportMix.tiers true := by
  have h : rawTotal reportMix 10 3 = 100 := by
    norm_num [rawTotal, contentCost, tierSubtotal, tierCount, tierMultiplier, reportMix,
      initReport]
  have he : (calculatePricing reportMix 10 3).estimated_cost = 100 := by
    rw [calculatePricing_estimated, h]
    exact round2_of_cents 100 10000 (by norm_num)
  have hs : specRawTotal reportMix.tiers true = 200 := by
    norm_num [specRawTotal, specSubtotal, specRate, specRushMultiplier, tierCount, reportMix,
      initReport]
  refine ⟨he, hs, ?_⟩
  rw [he, hs]
  norm_num

/-- Claim C5, amended: the code has no rush mode.  Its pricing is fully
determined by the report's tier counts, tagged flag and form total together
with the two configured rates: any two reports agreeing on those three
fields receive the same estimated cost and the same pricing breakdown, so
no input can double the subtotals. -/
theorem C5_amended_no_rush (r r' : Report) (b f : ℚ) (h1 : r.tiers = r'.tiers)
    (h2 : r.is_tagged = r'.is_tagged) (h3 : r.elements.forms = r'.elements.forms) :
    (calculatePricing r b f).estimated_cost = (calculatePricing r' b f).estimated_cost ∧
    (calculatePricing r b f).pricing = (calculatePricing r' b f).pricing := by
  constructor
  · rw [calculatePricing_estimated, calculatePricing_estimated]
    simp only [rawTotal, h1, h2, h3]
  · rw [calculatePricing_pricing, calculatePricing_pricing, h1, h2, h3]

/-- Witness for `C5_amended_no_rush` at two concrete reports that differ in
page count and breakdown but agree on tiers, tag flag and form total. -/
theorem C5_amended_no_rush_witness :
    (calculatePricing reportOneT1 10 3).estimated_cost =
      (calculatePricing reportOneT1Alt 10 3).estimated_cost ∧
    (calculatePricing reportOneT1 10 3).pricing =
      (calculatePricing reportOneT1Alt 10 3).pricing :=
  C5_amended_no_rush reportOneT1 reportOneT1Alt 10 3 rfl rfl rfl

/-- Claim C6, counterexample: two reports identical except for `is_tagged`
are priced differently — 10.00 when tagged, 12.50 when untagged (base rate
10.00) — so the tagged status does affect the computed price. -/
theorem C6_counterexample :
    reportOneT1Untagged = { reportOneT1 with is_tagged := false } ∧
    (calculatePricing reportOneT1 10 3).estimated_cost = 10 ∧
    (calculatePricing reportOneT1Untagged 10 3).estimated_cost = 12.5 ∧
    ¬ (calculatePricing reportOneT1Untagged 10 3).estimated_cost =
        (calculatePricing reportOneT1 10 3).estimated_cost := by
  have ht : (calculatePricing reportOneT1 10 3).estimated_cost = 10 := by
    rw [calculatePricing_estimated]
    have h : rawTotal reportOneT1 10 3 = 10 := by
      norm_num [rawTotal, contentCost, tierSubtotal, tierCount, tierMultiplier, reportOneT1,
        initReport]
    rw [h]
    exact round2_of_cents 10 1000 (by norm_num)
  have hu : (calculatePricing reportOneT1Untagged 10 3).estimated_cost = 12.5 := by
    rw [calculatePricing_estimated]
    have h : rawTotal reportOneT1Untagged 10 3 = 12.5 := by
      norm_num [rawTotal, contentCost, tierSubtotal, tierCount, tierMultiplier,
        reportOneT1Untagged, reportOneT1, initReport]
    rw [h]
    exact round2_of_cents 12.5 1250 (by norm_num)
  refine ⟨rfl, ht, hu, ?_⟩
  rw [ht, hu]
  norm_num

/-- Claim C6, amended: the tagged status does affect the price — an
untagged document is charged a 25% surcharge on its content cost: a tagged
report is billed `round2(content + forms)` while the same report untagged is
billed `round2(content * 1.25 + forms)`. -/
theorem C6_amended_surcharge (r : Report) (b f : ℚ) :
    (calculatePricing { r with is_tagged := true } b f).estimated_cost =
      round2 (contentCost r.tiers b + (r.elements.forms : ℚ) * f) ∧
    (calculatePricing { r with is_tagged := false } b f).estimated_cost =
      round2 (contentCost r.tiers b * 1.25 + (r.elements.forms : ℚ) * f) := by
  constructor
  · rw [calculatePricing_estimated]
    congr 1
    simp [rawTotal]
  · rw [calculatePricing_estimated]
    congr 1
    simp [rawTotal]
    ring

/-- Claim C7: the report's tagged flag is `checkTagging`, which is true
exactly when the root structure metadata is present and declares
`Marked = true`; a missing `MarkInfo`, a missing `Marked` entry or a false
`Marked` all yield `false`, and `checkTagging` is a total function (no
exception escapes — the handler of lines 56–57 is modelled away into
totality). -/
theorem C7_tagging (d : Document) (b f : ℚ) :
    (analyze d b f).is_tagged = checkTagging d ∧
    (checkTagging d = true ↔ d.markInfo.bind MarkInfo.marked = some true) ∧
    checkTagging ⟨none, []⟩ = false ∧
    checkTagging ⟨some ⟨none⟩, []⟩ = false ∧
    checkTagging ⟨some ⟨some false⟩, []⟩ = false ∧
    checkTagging ⟨some ⟨some true⟩, []⟩ = true := by
  refine ⟨?_, ?_, rfl, rfl, rfl, rfl⟩
  · simp only [analyze, calculatePricing_is_tagged, pageLoop_is_tagged]
  · obtain ⟨mi, pgs⟩ := d
    cases mi with
    | none => simp [checkTagging]
    | some m =>
      obtain ⟨mk⟩ := m
      cases mk <;> simp [checkTagging]

/-- Claim C8: a page whose raw content length cannot be read is assessed
exactly as if that signal were 0 — the whole page assessment is unchanged
by substituting `some 0` for the unreadable signal — and the page is still
assessed: it receives a score and a tier from its remaining signals and one
breakdown entry is appended, with nothing aborted. -/
theorem C8_unreadable_content (r : Report) (p : Page) (n : Nat) :
    assessPage r { p with contentLen := none } n =
      assessPage r { p with contentLen := some 0 } n ∧
    (assessPage r { p with contentLen := none } n).complexity_breakdown =
      r.complexity_breakdown ++
        [⟨n, classifyTier (pageScore { p with contentLen := none }),
          formsFound p, pageScore { p with contentLen := none }⟩] := by
  constructor
  · rw [assessPage_eq, assessPage_eq]
    simp [pageScore, densityBonus, densityFlag, formsFound, imageCount, imageBonus]
  · rw [assessPage_eq]
    simp [formsFound]

/-- Claim C9: for every analyzed document the tier counts sum to the total
page count, the total page count is the document's number of pages, and the
per-page breakdown has exactly one entry per page carrying the page numbers
1, 2, …, n in order. -/
theorem C9_report_invariants (d : Document) (b f : ℚ) :
    sumTiers (analyze d b f).tiers = (analyze d b f).total_pages ∧
    (analyze d b f).total_pages = d.pages.length ∧
    (analyze d b f).complexity_breakdown.map BreakdownEntry.page =
      List.range' 1 d.pages.length := by
  simp only [analyze, calculatePricing_tiers, calculatePricing_total_pages,
    calculatePricing_breakdown, pageLoop_total_pages, pageLoop_sumTiers,
    pageLoop_breakdown_map]
  simp [initReport, sumTiers]

/-- Claim C10: analyzing a zero-page document completes and yields a report
with zero total pages, zero tier counts, zero element totals, an empty
breakdown and an estimated cost of 0 (no minimum charge); the page loop —
and with it the per-page progress division — is never entered
(`progressUpdates 0 = []`). -/
theorem C10_zero_pages (mi : Option MarkInfo) (b f : ℚ) :
    (analyze ⟨mi, []⟩ b f).total_pages = 0 ∧
    (analyze ⟨mi, []⟩ b f).tiers = ⟨0, 0, 0⟩ ∧
    (analyze ⟨mi, []⟩ b f).elements = ⟨0, 0, 0⟩ ∧
    (analyze ⟨mi, []⟩ b f).complexity_breakdown = [] ∧
    (analyze ⟨mi, []⟩ b f).estimated_cost = 0 ∧
    progressUpdates 0 = [] := by
  refine ⟨rfl, rfl, rfl, rfl, ?_, rfl⟩
  have he : (analyze ⟨mi, []⟩ b f).estimated_cost =
      round2 (rawTotal { initReport with total_pages := 0, is_tagged := checkTagging ⟨mi, []⟩ } b f) := rfl
  have h0 : rawTotal { initReport with total_pages := 0, is_tagged := checkTagging ⟨mi, []⟩ } b f = 0 := by
    cases hc : checkTagging ⟨mi, []⟩ <;>
      simp [rawTotal, contentCost, tierSubtotal, tierCount, tierMultiplier, initReport, hc]
  rw [he, h0]
  exact round2_of_cents 0 0 (by norm_num)
